import Mathlib

/-!
Verification of the news-scraper repository (src/main.py, src/news_scraper.py,
src/utils.py) against its natural-language specification.

The Python code is shallowly embedded: each method of `NewsScraper` that the
claims mention is translated into an executable Lean definition over `String` /
`List Char`, with the browser, the filesystem, the HTTP fetch and the wall
clock made explicit parameters (oracles), and Python exceptions modelled with
`Option` / `Except`.
-/

/-! ## Character classes used by the regular expressions in the source

`check_for_money` uses the patterns `\$\d[\d,.]*` and `\d+\s*(dollars|USD)`
(no `re.IGNORECASE` flag), `download_image` strips non-word characters via `re.sub`.
ASCII semantics of `\d`, `\s`, `\W` are modelled. -/

def isSpaceChar (c : Char) : Bool :=
  c == ' ' || c == '\t' || c == '\n' || c == '\r' || c == '\x0b' || c == '\x0c'

def isWordChar (c : Char) : Bool :=
  c.isAlphanum || c == '_'

/-! ## TextClassifier: `check_for_money` (news_scraper.py lines 154-160)

`re.search(r"\$\d[\d,.]*", s)` succeeds iff `s` contains a dollar sign
immediately followed by a digit (the `[\d,.]*` tail can match the empty
string).  `re.search(r"\d+\s*(dollars|USD)", s)` succeeds iff `s` contains a
digit run (at least one digit), then optional whitespace, then the literal
`dollars` or the literal `USD` (case-sensitively: no IGNORECASE flag is
passed). -/

def dollarsLit : List Char := "dollars".toList

def usdLit : List Char := "USD".toList

def unitHere (post : List Char) : Bool :=
  dollarsLit.isPrefixOf post || usdLit.isPrefixOf post

def searchDollarNum : List Char → Bool
  | [] => false
  | c :: rest =>
    (c == '$' && (match rest with | d :: _ => d.isDigit | [] => false))
      || searchDollarNum rest

def searchNumUnit : List Char → Bool
  | [] => false
  | c :: rest =>
    (c.isDigit && unitHere ((rest.dropWhile Char.isDigit).dropWhile isSpaceChar))
      || searchNumUnit rest

def check_for_money (title description : String) : Bool :=
  (searchDollarNum title.toList || searchDollarNum description.toList)
    || (searchNumUnit title.toList || searchNumUnit description.toList)

/-! Spec-side variant (written from the spec sentence, for claim C1): the unit
words `dollars` / `USD` matched case-insensitively. -/

def usdLowerLit : List Char := "usd".toList

def unitHereCI (post : List Char) : Bool :=
  dollarsLit.isPrefixOf (post.map Char.toLower)
    || usdLowerLit.isPrefixOf (post.map Char.toLower)

def searchNumUnitCI : List Char → Bool
  | [] => false
  | c :: rest =>
    (c.isDigit && unitHereCI ((rest.dropWhile Char.isDigit).dropWhile isSpaceChar))
      || searchNumUnitCI rest

/-- Modelled from the spec (claim C1 side): money mention where a bare number
followed by the unit word is matched case-insensitively. -/
def specMoneyMention (title description : String) : Bool :=
  (searchDollarNum title.toList || searchDollarNum description.toList)
    || (searchNumUnitCI title.toList || searchNumUnitCI description.toList)

/-! Declarative characterizations of the two regular expressions
(existence-of-a-match semantics). -/

def dollarMatch (s : List Char) : Prop :=
  ∃ pre d post, s = pre ++ '$' :: d :: post ∧ d.isDigit = true

def numUnitMatch (s : List Char) : Prop :=
  ∃ pre ds ws post, s = pre ++ ds ++ ws ++ post ∧ ds ≠ [] ∧
    (∀ c ∈ ds, c.isDigit = true) ∧ (∀ c ∈ ws, isSpaceChar c = true) ∧
    unitHere post = true

def moneyMatch (s : List Char) : Prop := dollarMatch s ∨ numUnitMatch s

/-! ## TextClassifier: `search_phrase_count` (news_scraper.py lines 162-165)

`title.lower().count(sub)` with Python semantics: `str.count` counts
non-overlapping occurrences scanning left to right, and `s.count("")`
returns `len(s) + 1`. -/

def countOccAux : Nat → List Char → List Char → Nat
  | 0, _, _ => 0
  | fuel + 1, s, sub =>
    match s with
    | [] => 0
    | c :: rest =>
      if sub.isPrefixOf (c :: rest) then
        1 + countOccAux fuel (rest.drop (sub.length - 1)) sub
      else
        countOccAux fuel rest sub

def pyCount (s sub : List Char) : Nat :=
  if sub.length = 0 then s.length + 1 else countOccAux s.length s sub

def lowerStr (s : String) : List Char := s.toList.map Char.toLower

def search_phrase_count (search_phrase title description : String) : Nat :=
  pyCount (lowerStr title) (lowerStr search_phrase)
    + pyCount (lowerStr description) (lowerStr search_phrase)

/-! ## ImageFetcher: `download_image` (news_scraper.py lines 167-184)

The wall-clock read (`datetime.utcnow()`) inside the `try` block and the HTTP
fetch (`urllib.request.urlretrieve`) are made explicit parameters: `now` is
the string the clock read returns, `fetchOk` tells whether the fetch succeeds.
The returned pair is (result filename, whether a fetch was attempted). -/

def sanitizeTitle (title : String) : String :=
  String.mk ((title.toList.take 15).filter isWordChar)

def categoryTag (category : String) : String :=
  String.mk ((category.toList.map Char.toUpper).map (fun c => if c == ' ' then '_' else c))

def image_file_name (category title now : String) : String :=
  categoryTag category ++ "_" ++ sanitizeTitle title ++ "_" ++ now ++ ".jpg"

def download_image (category now : String) (fetchOk : Bool)
    (image_url : Option String) (title : String) : String × Bool :=
  match image_url with
  | none => ("placeholder.png", false)
  | some u =>
    if u = "" then ("placeholder.png", false)
    else if fetchOk then (image_file_name category title now, true)
    else ("placeholder.png", true)

/-! ## CategoryFilter: `filter_news_by_category` (news_scraper.py lines 53-84)

Each attempt interacts with the page; the possible outcomes of one attempt:
* `success`: the 30s wait finds the category span, it is visible, the click
  and the wait for the re-rendered list succeed (the method returns);
* `notVisible`: the wait succeeds but `is_element_visible` is false (the code
  logs a warning and falls through to the next attempt — no exception);
* `waitTimeout`: the 30s `WebDriverWait` raises `TimeoutException`;
* `renderTimeout`: the wait after the click raises.
The two raising outcomes reach the `except` block: the screenshot and the
`ValueError` happen only when `attempt == retry_attempts - 1`, i.e. on the
last attempt.  The loop runs over `range(3)`; falling off the loop reaches
the final `raise` on line 84.  The result models (raised error or normal
return, screenshots captured). -/

inductive AttemptOutcome
  | success
  | notVisible
  | waitTimeout
  | renderTimeout
deriving DecidableEq

def attemptShot (n : Nat) : String :=
  "error_screenshot_attempt_" ++ toString n ++ ".png"

def notFoundMsg (cat : String) : String :=
  "Category " ++ cat ++ " not found on the site after 3 attempts."

def failedLocateMsg (cat : String) : String :=
  "Failed to locate category " ++ cat ++ " after 3 attempts."

def filterLoop (cat : String) (outcomes : Nat → AttemptOutcome) :
    List Nat → List String → Except String Unit × List String
  | [], shots => (Except.error (failedLocateMsg cat), shots)
  | attempt :: rest, shots =>
    match outcomes attempt with
    | AttemptOutcome.success => (Except.ok (), shots)
    | AttemptOutcome.notVisible => filterLoop cat outcomes rest shots
    | AttemptOutcome.waitTimeout =>
      if attempt = 2 then
        (Except.error (notFoundMsg cat), shots ++ [attemptShot (attempt + 1)])
      else filterLoop cat outcomes rest shots
    | AttemptOutcome.renderTimeout =>
      if attempt = 2 then
        (Except.error (notFoundMsg cat), shots ++ [attemptShot (attempt + 1)])
      else filterLoop cat outcomes rest shots

def filter_news_by_category (cat : String) (outcomes : Nat → AttemptOutcome) :
    Except String Unit × List String :=
  if cat = "" then (Except.ok (), []) else filterLoop cat outcomes [0, 1, 2] []

/-! ## ArticleCollector: `scroll_and_load` (news_scraper.py lines 93-111)

The page is an oracle `query : Nat → List α` giving the element list returned
by the n-th `get_webelements` call (each loop iteration scrolls once and then
queries once, so scroll count = query count).  The Python `while` loop can
run unboundedly for adversarial pages (oscillating counts), so the embedding
takes explicit fuel and returns `none` on fuel exhaustion; every theorem
below supplies enough fuel.  The returned pair is
(`articles[:20]`, number of queries performed). -/

def scrollLoop (query : Nat → List α) : Nat → List α → Nat → Nat → Option (List α × Nat)
  | 0, _, _, _ => none
  | fuel + 1, articles, prev, idx =>
    if articles.length < 20 then
      if (query idx).length = prev then some (query idx, idx + 1)
      else scrollLoop query fuel (query idx) (query idx).length (idx + 1)
    else some (articles, idx)

def scroll_and_load (query : Nat → List α) (fuel : Nat) : Option (List α × Nat) :=
  (scrollLoop query fuel [] 0 0).map (fun r => (r.1.take 20, r.2))

/-- A page whose n-th query returns the first `counts n` elements of the
document-order stream `stream` (lazy loading accumulates elements in place). -/
def pageQuery (stream : Nat → α) (counts : Nat → Nat) (n : Nat) : List α :=
  (List.range (counts n)).map stream

def countsA : Nat → Nat
  | 0 => 5
  | 1 => 12
  | _ => 20

def countsB : Nat → Nat
  | 0 => 5
  | _ => 9

/-! ## ArticleCollector: `extract_news_data` (news_scraper.py lines 113-152)

One article element is modelled by what the DOM interactions on it yield:
`title` is the result of `find_element("h3.stream-item-title")` (`none` means
the call raises `NoSuchElementException`), `descr` is the result of the 10s
`WebDriverWait(article, 10).until(...)` for the summary paragraph (`none`
means the wait raises `TimeoutException`), `image` is the result of
`extract_image_url` (which catches its own exceptions and returns `None`).
Any exception inside the per-article `try` is caught by the `except` on line
149 and the article is skipped. -/

structure ArticleElem where
  title : Option String
  descr : Option String
  image : Option String
deriving DecidableEq

structure NewsItem where
  title : String
  description : String
  date : String
  picture_filename : String
  money_mentioned : Bool
  search_phrase_count : Nat
deriving DecidableEq

structure ScrapeConfig where
  category : String
  search_phrase : String
  today : String
  image_now : String
  fetchOk : Bool

def extract_image_url (a : ArticleElem) : Option String := a.image

def extract_article (cfg : ScrapeConfig) (a : ArticleElem) : Option NewsItem :=
  match a.title with
  | none => none
  | some t =>
    match a.descr with
    | none => none
    | some d =>
      some { title := t
             description := d
             date := cfg.today
             picture_filename :=
               (download_image cfg.category cfg.image_now cfg.fetchOk (extract_image_url a) t).1
             money_mentioned := check_for_money t d
             search_phrase_count := search_phrase_count cfg.search_phrase t d }

def extract_news_data (cfg : ScrapeConfig) (articles : List ArticleElem) : List NewsItem :=
  articles.filterMap (extract_article cfg)

/-! ## ResultPersister: `save_to_excel` (news_scraper.py lines 186-193)

`pd.DataFrame(news_data)` takes its column order from the insertion order of
the keys of the first dict; `to_excel(..., index=False)` writes the header
row followed by one row per record in list order. -/

inductive Cell
  | str (v : String)
  | flag (v : Bool)
  | num (v : Nat)
deriving DecidableEq

def excelColumns : List String :=
  ["title", "description", "date", "picture_filename", "money_mentioned", "search_phrase_count"]

def toRow (r : NewsItem) : List Cell :=
  [Cell.str r.title, Cell.str r.description, Cell.str r.date,
   Cell.str r.picture_filename, Cell.flag r.money_mentioned, Cell.num r.search_phrase_count]

def save_to_excel (data : List NewsItem) : List String × List (List Cell) :=
  (excelColumns, data.map toRow)

/-! ## Artifact naming across one run (claim C9)

Every file-naming site in the source calls `datetime.utcnow()` itself:
`create_output_directory` (line 34), `download_image` (line 172),
`save_to_excel` (line 187), `save_scrape_log` (line 196).  The model numbers
these naming-time clock reads in the order the run performs them (read 0 at
`__init__`, read i+1 for the i-th image download, then the spreadsheet, then
the log) and lets `clock` say what each read returns.  The run modelled is
one where every article has a non-empty image URL, so every download reaches
its `utcnow` call. -/

def output_dir_name (category now : String) : String :=
  "output/" ++ categoryTag category ++ "_" ++ now

def excel_file_name (category now : String) : String :=
  categoryTag category ++ "_news_data_" ++ now ++ ".xlsx"

def log_file_name (category now : String) : String :=
  categoryTag category ++ "_scrape_log_" ++ now ++ ".txt"

structure RunArtifacts where
  outputDir : String
  imageFiles : List String
  excelFile : String
  logFile : String
deriving DecidableEq

def run_artifacts (category : String) (titles : List String) (clock : Nat → String) :
    RunArtifacts :=
  { outputDir := output_dir_name category (clock 0)
    imageFiles := (List.range titles.length).map
      (fun i => image_file_name category (titles.getD i "") (clock (i + 1)))
    excelFile := excel_file_name category (clock (titles.length + 1))
    logFile := log_file_name category (clock (titles.length + 2)) }

/-- A strictly advancing wall clock: successive `utcnow` reads in one run
that fall in different seconds yield different timestamp strings. -/
def tickClock (n : Nat) : String := "2024010100000" ++ toString n

/-! ## Startup: `main` (main.py lines 4-12) and `get_config` (utils.py)

`config["k"]` on a Python dict raises `KeyError` when the key is absent;
`config.get("headless", True)` does not.  The argument expressions of the
`NewsScraper(...)` call are evaluated, in source order, before the
constructor runs, and `scraper.open_site()` — the first browser interaction —
runs only afterwards.  `mainRun` (the embedding of `main`; Lean reserves the
name `main` for executables) returns the browser-action trace of a run that
got past startup, or the startup error. -/

inductive ConfigVal
  | str (s : String)
  | num (n : Int)
  | flag (b : Bool)
deriving DecidableEq

def getKey (cfg : List (String × ConfigVal)) (k : String) : Except String ConfigVal :=
  match cfg.lookup k with
  | some v => Except.ok v
  | none => Except.error ("KeyError: " ++ k)

inductive BrowserAction
  | openSite
  | filterCategory
  | extractData
  | saveExcel
  | closeAll
deriving DecidableEq

def mainRun (cfg : List (String × ConfigVal)) : Except String (List BrowserAction) := do
  let _site ← getKey cfg "site_url"
  let _phrase ← getKey cfg "search_phrase"
  let _cat ← getKey cfg "category"
  let _months ← getKey cfg "months"
  let _headless := ((cfg.lookup "headless").getD (ConfigVal.flag true))
  Except.ok [BrowserAction.openSite, BrowserAction.filterCategory,
             BrowserAction.extractData, BrowserAction.saveExcel, BrowserAction.closeAll]

/-! ## Helper lemmas -/

theorem isPrefixOf_iff_exists {l₁ l₂ : List Char} :
    l₁.isPrefixOf l₂ = true ↔ ∃ t, l₂ = l₁ ++ t := by
  induction l₁ generalizing l₂ with
  | nil => simp [List.isPrefixOf]
  | cons a l ih =>
    cases l₂ with
    | nil => simp [List.isPrefixOf]
    | cons b m =>
      simp only [List.isPrefixOf, Bool.and_eq_true, beq_iff_eq, ih, List.cons_append,
        List.cons.injEq]
      constructor
      · rintro ⟨rfl, t, rfl⟩
        exact ⟨t, rfl, rfl⟩
      · rintro ⟨t, rfl, rfl⟩
        exact ⟨rfl, t, rfl⟩

theorem space_not_digit {c : Char} (h : isSpaceChar c = true) : c.isDigit = false := by
  simp only [isSpaceChar, Bool.or_eq_true, beq_iff_eq] at h
  rcases h with ((((rfl | rfl) | rfl) | rfl) | rfl) | rfl <;> decide

theorem unitHere_head {post : List Char} (h : unitHere post = true) :
    ∃ c rest, post = c :: rest ∧ c.isDigit = false ∧ isSpaceChar c = false := by
  simp only [unitHere, Bool.or_eq_true] at h
  rcases h with h | h
  · rcases isPrefixOf_iff_exists.mp h with ⟨t, rfl⟩
    exact ⟨'d', "ollars".toList ++ t, rfl, by decide, by decide⟩
  · rcases isPrefixOf_iff_exists.mp h with ⟨t, rfl⟩
    exact ⟨'U', "SD".toList ++ t, rfl, by decide, by decide⟩

theorem dropWhile_append_all {p : Char → Bool} {l₁ l₂ : List Char}
    (h : ∀ c ∈ l₁, p c = true) : (l₁ ++ l₂).dropWhile p = l₂.dropWhile p := by
  induction l₁ with
  | nil => rfl
  | cons a l ih =>
    rw [List.cons_append, List.dropWhile_cons, if_pos (h a (by simp))]
    exact ih (fun c hc => h c (by simp [hc]))

theorem dropWhile_cons_false {p : Char → Bool} {x : Char} {l : List Char}
    (h : p x = false) : (x :: l).dropWhile p = x :: l := by
  rw [List.dropWhile_cons, if_neg (by simp [h])]

theorem searchDollarNum_iff {s : List Char} : searchDollarNum s = true ↔ dollarMatch s := by
  induction s with
  | nil =>
    simp only [searchDollarNum, dollarMatch]
    constructor
    · intro h; exact absurd h (by decide)
    · rintro ⟨pre, d, post, h, -⟩
      exact absurd h (by simp)
  | cons c rest ih =>
    simp only [searchDollarNum, Bool.or_eq_true, Bool.and_eq_true, beq_iff_eq]
    constructor
    · rintro (⟨rfl, hm⟩ | hr)
      · cases rest with
        | nil => exact absurd hm (by decide)
        | cons d rest2 => exact ⟨[], d, rest2, rfl, hm⟩
      · rcases ih.mp hr with ⟨pre, d, post, rfl, hd⟩
        exact ⟨c :: pre, d, post, rfl, hd⟩
    · rintro ⟨pre, d, post, heq, hd⟩
      cases pre with
      | nil =>
        rw [List.nil_append] at heq
        cases heq
        exact Or.inl ⟨rfl, hd⟩
      | cons p pre2 =>
        rw [List.cons_append] at heq
        cases heq
        exact Or.inr (ih.mpr ⟨pre2, d, post, rfl, hd⟩)

theorem searchNumUnit_parts (ds ws post : List Char) (hne : ds ≠ [])
    (hds : ∀ c ∈ ds, c.isDigit = true) (hws : ∀ c ∈ ws, isSpaceChar c = true)
    (hu : unitHere post = true) :
    ∀ pre : List Char, searchNumUnit (pre ++ ds ++ ws ++ post) = true := by
  intro pre
  induction pre with
  | cons p pre2 ih =>
    rw [List.cons_append]
    simp only [searchNumUnit, Bool.or_eq_true]
    exact Or.inr ih
  | nil =>
    rw [List.nil_append]
    cases ds with
    | nil => exact absurd rfl hne
    | cons d ds2 =>
      rw [List.cons_append, List.cons_append, List.append_assoc]
      simp only [searchNumUnit, Bool.or_eq_true, Bool.and_eq_true]
      refine Or.inl ⟨hds d (by simp), ?_⟩
      rw [dropWhile_append_all (fun c hc => hds c (by simp [hc]))]
      rcases unitHere_head hu with ⟨u, urest, hpost, hud, hus⟩
      cases ws with
      | nil =>
        rw [List.nil_append, hpost, dropWhile_cons_false hud, dropWhile_cons_false hus,
          ← hpost]
        exact hu
      | cons w ws2 =>
        rw [List.cons_append, dropWhile_cons_false (space_not_digit (hws w (by simp))),
          List.dropWhile_cons, if_pos (hws w (by simp)),
          dropWhile_append_all (fun c hc => hws c (by simp [hc])), hpost,
          dropWhile_cons_false hus, ← hpost]
        exact hu

theorem searchNumUnit_iff {s : List Char} : searchNumUnit s = true ↔ numUnitMatch s := by
  constructor
  · intro h
    induction s with
    | nil => exact absurd h (by decide)
    | cons c rest ih =>
      simp only [searchNumUnit, Bool.or_eq_true, Bool.and_eq_true] at h
      rcases h with ⟨hd, hu⟩ | hr
      · refine ⟨[], c :: rest.takeWhile Char.isDigit,
          (rest.dropWhile Char.isDigit).takeWhile isSpaceChar,
          (rest.dropWhile Char.isDigit).dropWhile isSpaceChar, ?_, by simp, ?_, ?_, hu⟩
        · rw [List.nil_append, List.cons_append, List.cons_append, List.append_assoc,
            List.takeWhile_append_dropWhile, List.takeWhile_append_dropWhile]
        · intro x hx
          rcases List.mem_cons.mp hx with rfl | hx2
          · exact hd
          · exact List.mem_takeWhile_imp hx2
        · intro x hx
          exact List.mem_takeWhile_imp hx
      · rcases ih hr with ⟨pre, ds, ws, post, rfl, hne, hds, hws, hu⟩
        exact ⟨c :: pre, ds, ws, post, rfl, hne, hds, hws, hu⟩
  · rintro ⟨pre, ds, ws, post, rfl, hne, hds, hws, hu⟩
    exact searchNumUnit_parts ds ws post hne hds hws hu pre

theorem scrollLoop_result {α : Type} (query : Nat → List α) :
    ∀ (fuel : Nat) (art : List α) (prev idx : Nat) (res : List α) (q : Nat),
      scrollLoop query fuel art prev idx = some (res, q) →
      (∃ k, res = query k) ∨ res = art := by
  intro fuel
  induction fuel with
  | zero => intro art prev idx res q h; exact absurd h (by simp [scrollLoop])
  | succ f ih =>
    intro art prev idx res q h
    rw [scrollLoop] at h
    split at h
    · split at h
      · rename_i h2
        cases h
        exact Or.inl ⟨idx, rfl⟩
      · rcases ih _ _ _ _ _ h with ⟨k, hk⟩ | hk
        · exact Or.inl ⟨k, hk⟩
        · exact Or.inl ⟨idx, hk⟩
    · cases h
      exact Or.inr rfl

theorem scrollLoop_stops {α : Type} (stream : Nat → α) (counts : Nat → Nat) (k : Nat)
    (hk : 20 ≤ counts k ∨ counts k = counts (k + 1)) :
    ∀ (fuel : Nat) (art : List α) (prev idx : Nat), idx ≤ k → k + 2 ≤ fuel + idx →
      ∃ res q, scrollLoop (pageQuery stream counts) fuel art prev idx = some (res, q) ∧
        q ≤ k + 2 := by
  intro fuel
  induction fuel with
  | zero => intro art prev idx hik hf; omega
  | succ f ih =>
    intro art prev idx hik hf
    rw [scrollLoop]
    split
    · by_cases heq : (pageQuery stream counts idx).length = prev
      · rw [if_pos heq]
        exact ⟨_, _, rfl, by omega⟩
      · rw [if_neg heq]
        by_cases hik2 : idx < k
        · exact ih _ _ _ (by omega) (by omega)
        · have hidx : idx = k := by omega
          subst hidx
          have hf1 : 1 ≤ f := by omega
          rcases Nat.exists_eq_add_of_le hf1 with ⟨f2, rfl⟩
          rw [Nat.add_comm 1 f2]
          rw [scrollLoop]
          have hlen : (pageQuery stream counts idx).length = counts idx := by
            simp [pageQuery]
          rcases hk with h20 | hstall
          · rw [if_neg (by omega)]
            exact ⟨_, _, rfl, by omega⟩
          · split
            · rw [if_pos (by simp [pageQuery, hstall])]
              exact ⟨_, _, rfl, by omega⟩
            · exact ⟨_, _, rfl, by omega⟩
    · exact ⟨_, _, rfl, by omega⟩

theorem take_twenty_pageQuery {α : Type} (stream : Nat → α) (c : Nat) :
    ((List.range c).map stream).take 20 = (List.range (min 20 c)).map stream := by
  rw [← List.map_take, List.take_range]

theorem countOccAux_mul_le (sub : List Char) (hsub : sub ≠ []) :
    ∀ (fuel : Nat) (s : List Char), sub.length * countOccAux fuel s sub ≤ s.length := by
  intro fuel
  induction fuel with
  | zero => intro s; simp [countOccAux]
  | succ f ih =>
    intro s
    cases s with
    | nil => simp [countOccAux]
    | cons c rest =>
      rw [countOccAux]
      split
      · rename_i hpre
        have hlen : sub.length ≤ rest.length + 1 := by
          rcases isPrefixOf_iff_exists.mp hpre with ⟨tl, htl⟩
          have h2 := congrArg List.length htl
          simp at h2
          omega
        have h1 : 1 ≤ sub.length := by
          cases sub with
          | nil => exact absurd rfl hsub
          | cons a l => simp
        have h2 := ih (rest.drop (sub.length - 1))
        rw [List.length_drop] at h2
        rw [Nat.mul_add, Nat.mul_one]
        refine Nat.le_trans (Nat.add_le_add_left h2 sub.length) ?_
        simp only [List.length_cons]
        omega
      · have h2 := ih rest
        simp only [List.length_cons]
        exact Nat.le_trans h2 (Nat.le_succ _)

/-! ## Claim theorems -/

/-- Claim C1 (amended): `check_for_money` returns true iff the title or the
description contains a currency amount (a dollar sign immediately followed by
a digit, with optional separator tail) or a bare number followed by optional
whitespace and the literal `dollars` or the literal `USD` — matched
case-SENSITIVELY; the source passes no IGNORECASE flag, so the
case-insensitive matching asserted by the claim does not hold. -/
theorem check_for_money_spec (title description : String) :
    check_for_money title description = true ↔
      (moneyMatch title.toList ∨ moneyMatch description.toList) := by
  unfold check_for_money moneyMatch
  simp only [Bool.or_eq_true, searchDollarNum_iff, searchNumUnit_iff]
  tauto

/-- Claim C1, counterexample to the claim as stated: "100 Dollars" contains a
bare number followed by "dollars" up to case, so the claim-side
(case-insensitive) predicate accepts it, yet `check_for_money` returns
false. -/
theorem check_for_money_ci_cex :
    check_for_money "100 Dollars" "" = false ∧
      specMoneyMention "100 Dollars" "" = true := by
  decide

/-- Claim C2: the scroll/load loop returns at most 20 elements in document
order; on query counts {5, 12, 20, 20} it stops after the 3rd query (3
scrolls, 3 queries) with exactly 20 elements; on {5, 9, 9} the no-progress
condition stops it after the 3rd query with 9 elements; and whenever the
count reaches 20 at query k or queries k and k+1 return the same count, the
loop performs at most k+2 queries. -/
theorem scroll_and_load_spec :
    (∀ (α : Type) (stream : Nat → α),
        scroll_and_load (pageQuery stream countsA) 100 =
          some ((List.range 20).map stream, 3)) ∧
    (∀ (α : Type) (stream : Nat → α),
        scroll_and_load (pageQuery stream countsB) 100 =
          some ((List.range 9).map stream, 3)) ∧
    (∀ (α : Type) (stream : Nat → α) (counts : Nat → Nat) (fuel : Nat)
        (res : List α) (q : Nat),
        scroll_and_load (pageQuery stream counts) fuel = some (res, q) →
        res.length ≤ 20 ∧ res = (List.range res.length).map stream) ∧
    (∀ (α : Type) (stream : Nat → α) (counts : Nat → Nat) (k fuel : Nat),
        k + 2 ≤ fuel → (20 ≤ counts k ∨ counts k = counts (k + 1)) →
        ∃ res q, scroll_and_load (pageQuery stream counts) fuel = some (res, q) ∧
          q ≤ k + 2) := by
  refine ⟨fun α stream => rfl, fun α stream => rfl, ?_, ?_⟩
  · intro α stream counts fuel res q h
    unfold scroll_and_load at h
    cases hE : scrollLoop (pageQuery stream counts) fuel [] 0 0 with
    | none => rw [hE] at h; exact absurd h (by simp)
    | some r =>
      rw [hE] at h
      have hres : res = r.1.take 20 := by
        cases r
        cases h
        rfl
      rcases scrollLoop_result (pageQuery stream counts) fuel [] 0 0 r.1 r.2
          (by rw [hE]) with ⟨k, hk⟩ | hk
      · rw [hres, hk]
        unfold pageQuery
        rw [take_twenty_pageQuery]
        refine ⟨by simp, ?_⟩
        simp
      · rw [hres, hk]
        simp
  · intro α stream counts k fuel hf hcond
    rcases scrollLoop_stops stream counts k hcond fuel [] 0 0 (Nat.zero_le k)
        (by omega) with ⟨res, q, hrun, hq⟩
    refine ⟨res.take 20, q, ?_, hq⟩
    unfold scroll_and_load
    rw [hrun]
    rfl

/-- Claim C2 witness: concrete instantiations discharging the hypotheses of
the general conjuncts at the {5, 9, 9} page. -/
theorem scroll_and_load_spec_witness :
    (((List.range 9).map (fun n : Nat => n)).length ≤ 20 ∧
      (List.range 9).map (fun n : Nat => n) =
        (List.range ((List.range 9).map (fun n : Nat => n)).length).map
          (fun n : Nat => n)) ∧
    (∃ res q, scroll_and_load (pageQuery (fun n : Nat => n) countsB) 100 =
        some (res, q) ∧ q ≤ 1 + 2) :=
  ⟨scroll_and_load_spec.2.2.1 Nat (fun n => n) countsB 100 _ 3
      (scroll_and_load_spec.2.1 Nat (fun n => n)),
    scroll_and_load_spec.2.2.2 Nat (fun n => n) countsB 1 100 (by decide)
      (Or.inr (by decide))⟩

/-- Claim C3 (code bug): an article element whose title extraction succeeds
but whose description wait times out is DROPPED by `extract_news_data`: the
`WebDriverWait(article, 10).until(...)` call raises `TimeoutException`, the
per-article `except` catches it, and no record is appended — the
`"No description available"` fallback expression on line 141 is dead code,
so the record with the placeholder description promised by the spec never
appears. -/
theorem description_timeout_drops (cfg : ScrapeConfig) (t : String)
    (img : Option String) (rest : List ArticleElem) :
    extract_article cfg { title := some t, descr := none, image := img } = none ∧
    extract_news_data cfg
        ({ title := some t, descr := none, image := img } :: rest) =
      extract_news_data cfg rest :=
  ⟨rfl, rfl⟩

/-- Claim C4: `search_phrase_count` sums the Python `str.count`
(case-insensitive via `.lower()`, non-overlapping) of the phrase over title
and description; `("Tesla stock", "Tesla rises again", "tesla")` gives 2,
case variants of the phrase give the same result, the count is
non-overlapping ("aa" occurs twice in "aaaa", not three times), and the
counted occurrences are disjoint: for a non-empty phrase,
`phrase.length * count ≤ text.length` on each field. -/
theorem search_phrase_count_spec :
    (search_phrase_count "tesla" "Tesla stock" "Tesla rises again" = 2) ∧
    (search_phrase_count "TeSLa" "Tesla stock" "tesla rises AGAIN" = 2) ∧
    (search_phrase_count "aa" "aaaa" "" = 2) ∧
    (∀ phrase title description : String,
      search_phrase_count phrase title description =
        pyCount (lowerStr title) (lowerStr phrase)
          + pyCount (lowerStr description) (lowerStr phrase)) ∧
    (∀ s sub : List Char, sub ≠ [] → sub.length * pyCount s sub ≤ s.length) := by
  refine ⟨by decide, by decide, by decide, fun _ _ _ => rfl, ?_⟩
  intro s sub hsub
  unfold pyCount
  rw [if_neg (by simpa using hsub)]
  exact countOccAux_mul_le sub hsub s.length s

/-- Claim C4 witness: the disjointness bound discharged at a concrete
non-empty phrase. -/
theorem search_phrase_count_spec_witness :
    ("aa".toList ≠ []) ∧
      "aa".toList.length * pyCount "aaaa".toList "aa".toList ≤
        "aaaa".toList.length :=
  ⟨by decide, search_phrase_count_spec.2.2.2.2 "aaaa".toList "aa".toList (by decide)⟩

/-- Claim C5, counterexample to the claim as stated: with the category never
present (the 30-second wait of every attempt raises `TimeoutException`), the run
produces exactly ONE diagnostic screenshot, not 3 — the screenshot call is
guarded by `attempt == retry_attempts - 1` and so fires only on the final
attempt. -/
theorem category_filter_cex :
    (filter_news_by_category "Economy"
        (fun _ => AttemptOutcome.waitTimeout)).2.length = 1 ∧
    ¬ (filter_news_by_category "Economy"
        (fun _ => AttemptOutcome.waitTimeout)).2.length = 3 := by
  decide

/-- Claim C5 (amended): when the configured category is never present in the
3 attempts (each wait times out), the filter raises the fatal "not found"
error exactly once — after the retry budget is exhausted, not once per
attempt — and captures exactly one diagnostic screenshot, tagged with the
final attempt number 3. -/
theorem category_filter_spec (cat : String) (outcomes : Nat → AttemptOutcome)
    (hcat : cat ≠ "") (h : ∀ i, i < 3 → outcomes i = AttemptOutcome.waitTimeout) :
    filter_news_by_category cat outcomes =
      (Except.error (notFoundMsg cat), [attemptShot 3]) := by
  unfold filter_news_by_category
  rw [if_neg hcat]
  simp only [filterLoop, h 0 (by omega), h 1 (by omega), h 2 (by omega)]
  simp

/-- Claim C5 witness: the amended statement at a concrete category and a page
where the category span never appears. -/
theorem category_filter_spec_witness :
    ("Economy" ≠ "") ∧
      filter_news_by_category "Economy" (fun _ => AttemptOutcome.waitTimeout) =
        (Except.error (notFoundMsg "Economy"), [attemptShot 3]) :=
  ⟨by decide,
    category_filter_spec "Economy" (fun _ => AttemptOutcome.waitTimeout)
      (by decide) (fun i _ => rfl)⟩

/-- Claim C6: the image downloader never raises in the model (it is a total
function); with an absent (`None`) or empty image URL it returns the
placeholder token `"placeholder.png"` without attempting any fetch, and when
the fetch fails for any reason it returns the placeholder token. -/
theorem download_image_safe :
    (∀ category now fetchOk title,
        download_image category now fetchOk none title = ("placeholder.png", false)) ∧
    (∀ category now fetchOk title,
        download_image category now fetchOk (some "") title =
          ("placeholder.png", false)) ∧
    (∀ category now title u,
        (download_image category now false (some u) title).1 = "placeholder.png") := by
  refine ⟨fun _ _ _ _ => rfl, fun _ _ _ _ => rfl, ?_⟩
  intro category now title u
  by_cases h : u = "" <;> simp [download_image, h]

theorem extract_news_data_titles (cfg : ScrapeConfig) :
    ∀ articles : List ArticleElem,
      (∀ a ∈ articles, a.title.isSome ∧ a.descr.isSome) →
      (extract_news_data cfg articles).length = articles.length ∧
      (extract_news_data cfg articles).map NewsItem.title =
        articles.map (fun a => a.title.getD "") := by
  intro articles
  induction articles with
  | nil => intro _; exact ⟨rfl, rfl⟩
  | cons a rest ih =>
    intro h
    obtain ⟨ht, hd⟩ := h a (by simp)
    rcases Option.isSome_iff_exists.mp ht with ⟨t, hat⟩
    rcases Option.isSome_iff_exists.mp hd with ⟨d, had⟩
    have ih2 := ih (fun x hx => h x (by simp [hx]))
    refine ⟨?_, ?_⟩
    · simp [extract_news_data, List.filterMap_cons, extract_article, hat, had]
      simpa [extract_news_data] using ih2.1
    · simp [extract_news_data, List.filterMap_cons, extract_article, hat, had]
      simpa [extract_news_data] using ih2.2

/-- Claim C7: for every list of well-formed article elements (title found,
description appears within its wait), the persister output has the fixed
column header order and exactly one data row per input element, in input
order, with the title column matching the input titles in order. -/
theorem save_round_trip (cfg : ScrapeConfig) (articles : List ArticleElem)
    (h : ∀ a ∈ articles, a.title.isSome ∧ a.descr.isSome) :
    (save_to_excel (extract_news_data cfg articles)).1 = excelColumns ∧
    ((save_to_excel (extract_news_data cfg articles)).2).length = articles.length ∧
    ((save_to_excel (extract_news_data cfg articles)).2).map List.head? =
      articles.map (fun a => some (Cell.str (a.title.getD ""))) := by
  have haux := extract_news_data_titles cfg articles h
  refine ⟨rfl, ?_, ?_⟩
  · simp [save_to_excel, haux.1]
  · calc ((save_to_excel (extract_news_data cfg articles)).2).map List.head?
        = ((extract_news_data cfg articles).map NewsItem.title).map
            (fun t => some (Cell.str t)) := by
          simp [save_to_excel, List.map_map]
          intro a _
          rfl
      _ = (articles.map (fun a => a.title.getD "")).map
            (fun t => some (Cell.str t)) := by rw [haux.2]
      _ = articles.map (fun a => some (Cell.str (a.title.getD ""))) := by
          simp [List.map_map]

/-- Claim C7 witness: two well-formed article elements round-trip into two
rows with matching titles. -/
theorem save_round_trip_witness :
    (∀ a ∈ [ArticleElem.mk (some "Tesla up") (some "desc one") none,
            ArticleElem.mk (some "Fed rates") (some "desc two") (some "http://img")],
        a.title.isSome ∧ a.descr.isSome) ∧
    ((save_to_excel (extract_news_data
        (ScrapeConfig.mk "Economy" "tesla" "2024-01-01" "20240101000000" true)
        [ArticleElem.mk (some "Tesla up") (some "desc one") none,
         ArticleElem.mk (some "Fed rates") (some "desc two") (some "http://img")])).2).length = 2 :=
  ⟨by decide,
    (save_round_trip
      (ScrapeConfig.mk "Economy" "tesla" "2024-01-01" "20240101000000" true)
      [ArticleElem.mk (some "Tesla up") (some "desc one") none,
       ArticleElem.mk (some "Fed rates") (some "desc two") (some "http://img")]
      (by decide)).2.1⟩

/-- Claim C8, counterexample to the claim as stated: calling the counter with
the empty phrase is NOT a defined error — it silently returns a count
(Python `"ab".count("") == 3` and `"c".count("") == 2`, so 5 here), and no
upstream validation rejects an empty `search_phrase`. -/
theorem empty_phrase_cex : search_phrase_count "" "ab" "c" = 5 := by
  decide

/-- Claim C8 (amended): with the empty phrase, `search_phrase_count`
silently returns `title.length + description.length + 2` (the Python
`str.count("")` semantics summed over the two fields); no error is raised
and no rejection happens anywhere in the program. -/
theorem empty_phrase_count (title description : String) :
    search_phrase_count "" title description =
      title.length + description.length + 2 := by
  have h2 : ∀ s : String, (lowerStr s).length = s.length := by
    intro s
    unfold lowerStr
    rw [List.length_map]
    rfl
  unfold search_phrase_count pyCount
  simp [h2]
  omega

/-- Claim C9, counterexample to the claim as stated: with a wall clock whose
successive reads fall in different seconds, the spreadsheet and log names are
keyed by their own later clock reads, not by the run-start timestamp that
keys the output directory — `save_to_excel`, `save_scrape_log` and
`download_image` each call `datetime.utcnow()` themselves. -/
theorem run_timestamp_cex :
    (run_artifacts "Economy" [] tickClock).outputDir =
      output_dir_name "Economy" (tickClock 0) ∧
    (run_artifacts "Economy" [] tickClock).excelFile =
      excel_file_name "Economy" (tickClock 1) ∧
    (run_artifacts "Economy" [] tickClock).excelFile ≠
      excel_file_name "Economy" (tickClock 0) ∧
    (run_artifacts "Economy" [] tickClock).logFile ≠
      log_file_name "Economy" (tickClock 0) := by
  refine ⟨rfl, rfl, ?_, ?_⟩ <;> decide

/-- Claim C9 (amended): each artifact-naming operation reads the wall clock
independently — read 0 at construction for the output directory, read i+1
for the i-th image, read n+1 for the spreadsheet, read n+2 for the log — so
the artifacts of one run all carry the run-start timestamp only when every
one of those reads returns the same string. -/
theorem run_timestamp_per_read (category : String) (titles : List String)
    (clock : Nat → String) (ts : String) (h : ∀ n, clock n = ts) :
    (run_artifacts category titles clock).outputDir =
      output_dir_name category (clock 0) ∧
    (run_artifacts category titles clock).excelFile =
      excel_file_name category (clock (titles.length + 1)) ∧
    (run_artifacts category titles clock).logFile =
      log_file_name category (clock (titles.length + 2)) ∧
    run_artifacts category titles clock =
      { outputDir := output_dir_name category ts
        imageFiles := (List.range titles.length).map
          (fun i => image_file_name category (titles.getD i "") ts)
        excelFile := excel_file_name category ts
        logFile := log_file_name category ts } := by
  refine ⟨rfl, rfl, rfl, ?_⟩
  simp [run_artifacts, h]

/-- Claim C9 witness: a constant clock (all reads within the same second)
does key every artifact by the single run timestamp. -/
theorem run_timestamp_per_read_witness :
    run_artifacts "Economy" ["Tesla up"] (fun _ => "20240101000000") =
      { outputDir := output_dir_name "Economy" "20240101000000"
        imageFiles := (List.range (["Tesla up"] : List String).length).map
          (fun i => image_file_name "Economy" ((["Tesla up"] : List String).getD i "")
            "20240101000000")
        excelFile := excel_file_name "Economy" "20240101000000"
        logFile := log_file_name "Economy" "20240101000000" } :=
  (run_timestamp_per_read "Economy" ["Tesla up"] (fun _ => "20240101000000")
    "20240101000000" (fun _ => rfl)).2.2.2

/-- Claim C10: when the startup configuration omits the "months" key, the run
aborts at startup with a key-lookup error (the `config["months"]` argument of
the `NewsScraper(...)` call raises `KeyError` before `open_site` runs), no
browser-action trace is produced, and the months value is never applied: two
configurations differing only in their months value produce identical runs. -/
theorem months_key_required (cfg : List (String × ConfigVal))
    (h : cfg.lookup "months" = none) :
    (∃ k, mainRun cfg = Except.error ("KeyError: " ++ k)) ∧
    (∀ acts, mainRun cfg ≠ Except.ok acts) ∧
    (∀ s p c m m2 : ConfigVal,
      mainRun [("site_url", s), ("search_phrase", p), ("category", c), ("months", m)] =
        mainRun [("site_url", s), ("search_phrase", p), ("category", c),
          ("months", m2)]) := by
  obtain ⟨k, hk⟩ : ∃ k, mainRun cfg = Except.error ("KeyError: " ++ k) := by
    cases h1 : cfg.lookup "site_url" with
    | none => exact ⟨"site_url", by simp [mainRun, getKey, h1, Bind.bind, Except.bind]⟩
    | some v1 =>
      cases h2 : cfg.lookup "search_phrase" with
      | none => exact ⟨"search_phrase", by simp [mainRun, getKey, h1, h2, Bind.bind, Except.bind]⟩
      | some v2 =>
        cases h3 : cfg.lookup "category" with
        | none => exact ⟨"category", by simp [mainRun, getKey, h1, h2, h3, Bind.bind, Except.bind]⟩
        | some v3 => exact ⟨"months", by simp [mainRun, getKey, h1, h2, h3, h, Bind.bind, Except.bind]⟩
  refine ⟨⟨k, hk⟩, ?_, fun s p c m m2 => rfl⟩
  intro acts hacts
  rw [hk] at hacts
  exact Except.noConfusion hacts

/-- Claim C10 witness: a configuration holding every key except "months"
fails startup, producing no browser-action trace. -/
theorem months_key_required_witness :
    mainRun [("site_url", ConfigVal.str "https://news.yahoo.com"),
             ("search_phrase", ConfigVal.str "tesla"),
             ("category", ConfigVal.str "Economy")] ≠
      Except.ok [BrowserAction.openSite, BrowserAction.filterCategory,
                 BrowserAction.extractData, BrowserAction.saveExcel,
                 BrowserAction.closeAll] :=
  (months_key_required
    [("site_url", ConfigVal.str "https://news.yahoo.com"),
     ("search_phrase", ConfigVal.str "tesla"),
     ("category", ConfigVal.str "Economy")] rfl).2.1 _
